import Mathlib

/-!
Verification of the neopdf grid/metadata core.

This file embeds, in Lean, the data model and operations of
`src/neopdf/src/metadata.rs` and `src/neopdf/src/subgrid.rs`:

* the two metadata schema versions `MetaDataV1` / `MetaDataV2`, their
  conversions, the version-detection heuristic of
  `impl Deserialize for MetaData`, and the `Deref`/`DerefMut` access path;
* `ParamRange`, `GridData` (6D fixed-rank and 8D variable-rank tensors),
  `SubGrid` with its constructors `new` / `new_8d`, and the operations
  `contains_point`, `distance_to_point`, `parameter_ranges`,
  `interpolation_config`, `grid_slice`, `grid_6d`, `grid_8d`.

Machine floats (`f64`) are modelled as rationals; a Rust `panic!` is
modelled as `Option.none`.  `InterpolationConfig::from_dimensions` lives in
`interpolator.rs`, which is not part of this tree; it is modelled from the
specification (see its doc comment).
-/

/-- Type of PDF set (`SetType` in `metadata.rs`). -/
inductive SetType
  | SpaceLike
  | TimeLike
deriving DecidableEq, Repr

/-- Type of interpolator (`InterpolatorType` in `metadata.rs`).  The ordinal
position is the wire representation, so the order mirrors the source. -/
inductive InterpolatorType
  | Bilinear
  | LogBilinear
  | LogBicubic
  | LogTricubic
  | InterpNDLinear
  | LogChebyshev
  | LogFourCubic
deriving DecidableEq, Repr

/-- The V1 information block of a PDF set (`MetaDataV1` in `metadata.rs`).
`f64` fields are modelled as `ℚ`. -/
structure MetaDataV1 where
  set_desc : String
  set_index : ℕ
  num_members : ℕ
  x_min : ℚ
  x_max : ℚ
  q_min : ℚ
  q_max : ℚ
  flavors : List ℤ
  format : String
  alphas_q_values : List ℚ
  alphas_vals : List ℚ
  polarised : Bool
  set_type : SetType
  interpolator_type : InterpolatorType
  error_type : String
  hadron_pid : ℤ
  git_version : String
  code_version : String
  flavor_scheme : String
  order_qcd : ℕ
  alphas_order_qcd : ℕ
  m_w : ℚ
  m_z : ℚ
  m_up : ℚ
  m_down : ℚ
  m_strange : ℚ
  m_charm : ℚ
  m_bottom : ℚ
  m_top : ℚ
  alphas_type : String
  number_flavors : ℕ
deriving DecidableEq

/-- The V2 information block (`MetaDataV2` in `metadata.rs`): all V1 fields
plus the xi/delta validity ranges. -/
structure MetaDataV2 where
  set_desc : String
  set_index : ℕ
  num_members : ℕ
  x_min : ℚ
  x_max : ℚ
  q_min : ℚ
  q_max : ℚ
  flavors : List ℤ
  format : String
  alphas_q_values : List ℚ
  alphas_vals : List ℚ
  polarised : Bool
  set_type : SetType
  interpolator_type : InterpolatorType
  error_type : String
  hadron_pid : ℤ
  git_version : String
  code_version : String
  flavor_scheme : String
  order_qcd : ℕ
  alphas_order_qcd : ℕ
  m_w : ℚ
  m_z : ℚ
  m_up : ℚ
  m_down : ℚ
  m_strange : ℚ
  m_charm : ℚ
  m_bottom : ℚ
  m_top : ℚ
  alphas_type : String
  number_flavors : ℕ
  xi_min : ℚ
  xi_max : ℚ
  delta_min : ℚ
  delta_max : ℚ
deriving DecidableEq

/-- `MetaDataV2::to_v1`: converts V2 metadata to V1 by dropping the xi and
delta fields. -/
def MetaDataV2.to_v1 (v2 : MetaDataV2) : MetaDataV1 :=
  { set_desc := v2.set_desc
    set_index := v2.set_index
    num_members := v2.num_members
    x_min := v2.x_min
    x_max := v2.x_max
    q_min := v2.q_min
    q_max := v2.q_max
    flavors := v2.flavors
    format := v2.format
    alphas_q_values := v2.alphas_q_values
    alphas_vals := v2.alphas_vals
    polarised := v2.polarised
    set_type := v2.set_type
    interpolator_type := v2.interpolator_type
    error_type := v2.error_type
    hadron_pid := v2.hadron_pid
    git_version := v2.git_version
    code_version := v2.code_version
    flavor_scheme := v2.flavor_scheme
    order_qcd := v2.order_qcd
    alphas_order_qcd := v2.alphas_order_qcd
    m_w := v2.m_w
    m_z := v2.m_z
    m_up := v2.m_up
    m_down := v2.m_down
    m_strange := v2.m_strange
    m_charm := v2.m_charm
    m_bottom := v2.m_bottom
    m_top := v2.m_top
    alphas_type := v2.alphas_type
    number_flavors := v2.number_flavors }

/-- `impl From<MetaDataV1> for MetaDataV2`: converts V1 metadata to V2 with
default xi and delta values (`xi_min = xi_max = 1.0`,
`delta_min = delta_max = 0.0`). -/
def MetaDataV2.fromV1 (v1 : MetaDataV1) : MetaDataV2 :=
  { set_desc := v1.set_desc
    set_index := v1.set_index
    num_members := v1.num_members
    x_min := v1.x_min
    x_max := v1.x_max
    q_min := v1.q_min
    q_max := v1.q_max
    flavors := v1.flavors
    format := v1.format
    alphas_q_values := v1.alphas_q_values
    alphas_vals := v1.alphas_vals
    polarised := v1.polarised
    set_type := v1.set_type
    interpolator_type := v1.interpolator_type
    error_type := v1.error_type
    hadron_pid := v1.hadron_pid
    git_version := v1.git_version
    code_version := v1.code_version
    flavor_scheme := v1.flavor_scheme
    order_qcd := v1.order_qcd
    alphas_order_qcd := v1.alphas_order_qcd
    m_w := v1.m_w
    m_z := v1.m_z
    m_up := v1.m_up
    m_down := v1.m_down
    m_strange := v1.m_strange
    m_charm := v1.m_charm
    m_bottom := v1.m_bottom
    m_top := v1.m_top
    alphas_type := v1.alphas_type
    number_flavors := v1.number_flavors
    xi_min := 1
    xi_max := 1
    delta_min := 0
    delta_max := 0 }

/-- Version-aware metadata wrapper (`enum MetaData` in `metadata.rs`). -/
inductive MetaData
  | V2 (d : MetaDataV2)
  | V1 (d : MetaDataV1)
deriving DecidableEq

/-- `MetaData::is_v2`. -/
def MetaData.is_v2 : MetaData → Bool
  | .V2 _ => true
  | .V1 _ => false

/-- The `has_v2_ranges` test of `impl Deserialize for MetaData`: some
xi/delta bound differs from zero by more than `1e-10`. -/
def MetaDataV2.has_v2_ranges (v2 : MetaDataV2) : Bool :=
  decide (|v2.xi_min| > (1 : ℚ) / 10000000000) ||
  decide (|v2.xi_max| > (1 : ℚ) / 10000000000) ||
  decide (|v2.delta_min| > (1 : ℚ) / 10000000000) ||
  decide (|v2.delta_max| > (1 : ℚ) / 10000000000)

/-- The `has_v2_interpolator` test of `impl Deserialize for MetaData`: the
interpolator type is the V2-only `LogFourCubic` variant. -/
def MetaDataV2.has_v2_interpolator (v2 : MetaDataV2) : Bool :=
  decide (v2.interpolator_type = InterpolatorType.LogFourCubic)

/-- `impl Deserialize for MetaData`, after the serde parse: the input has
already been parsed against the V2 schema (absent numeric fields default to
`0.0`); the heuristic then decides the effective version. -/
def MetaData.deserialize (v2 : MetaDataV2) : MetaData :=
  if v2.has_v2_ranges || v2.has_v2_interpolator then
    MetaData.V2 v2
  else
    MetaData.V1 v2.to_v1

/-- `impl Deref for MetaData` (target `MetaDataV1`); the V2 arm panics,
modelled as `none`. -/
def MetaData.deref : MetaData → Option MetaDataV1
  | .V1 d => some d
  | .V2 _ => none

/-- `impl DerefMut for MetaData`; the V2 arm panics, modelled as `none`. -/
def MetaData.deref_mut : MetaData → Option MetaDataV1
  | .V1 d => some d
  | .V2 _ => none

/-- A concrete parsed record with every field at its serde default
(numeric fields `0.0`, strings empty, `LogBicubic` interpolator). -/
def defaultV2 : MetaDataV2 :=
  { set_desc := ""
    set_index := 0
    num_members := 0
    x_min := 0
    x_max := 0
    q_min := 0
    q_max := 0
    flavors := []
    format := ""
    alphas_q_values := []
    alphas_vals := []
    polarised := false
    set_type := SetType.SpaceLike
    interpolator_type := InterpolatorType.LogBicubic
    error_type := ""
    hadron_pid := 0
    git_version := ""
    code_version := ""
    flavor_scheme := ""
    order_qcd := 0
    alphas_order_qcd := 0
    m_w := 0
    m_z := 0
    m_up := 0
    m_down := 0
    m_strange := 0
    m_charm := 0
    m_bottom := 0
    m_top := 0
    alphas_type := ""
    number_flavors := 0
    xi_min := 0
    xi_max := 0
    delta_min := 0
    delta_max := 0 }

/-- A parsed record with the neutral xi interval `[1, 1]`, the neutral delta
interval `[0, 0]`, and a non-`LogFourCubic` interpolator. -/
def neutralXiV2 : MetaDataV2 :=
  { defaultV2 with xi_min := 1, xi_max := 1 }

/-- The valid range of a parameter (`ParamRange` in `subgrid.rs`). -/
structure ParamRange where
  min : ℚ
  max : ℚ
deriving DecidableEq, Repr

/-- `ParamRange::contains`: inclusive at both ends. -/
def ParamRange.contains (r : ParamRange) (value : ℚ) : Bool :=
  decide (value ≥ r.min) && decide (value ≤ r.max)

/-- A 6-dimensional tensor with axes `[nucleons, alphas, pids, kT, x, Q2]`
(the `Array6<f64>` payload of `GridData::Grid6D`), stored as its
standard-layout flat data. -/
structure Grid6 where
  d0 : ℕ
  d1 : ℕ
  d2 : ℕ
  d3 : ℕ
  d4 : ℕ
  d5 : ℕ
  dat : List ℚ
deriving DecidableEq

/-- Element access of the 6D tensor at multi-index `(i0, ..., i5)`:
row-major lookup in the stored layout. -/
def Grid6.get (g : Grid6) (i0 i1 i2 i3 i4 i5 : ℕ) : ℚ :=
  g.dat.getD (((((i0 * g.d1 + i1) * g.d2 + i2) * g.d3 + i3) * g.d4 + i4) * g.d5 + i5) 0

/-- An 8-dimensional tensor with axes
`[nucleons, alphas, xi, delta, kT, pids, x, Q2]` (the `ArrayD<f64>` payload
of `GridData::Grid8D`), stored as its standard-layout flat data. -/
structure Grid8 where
  e0 : ℕ
  e1 : ℕ
  e2 : ℕ
  e3 : ℕ
  e4 : ℕ
  e5 : ℕ
  e6 : ℕ
  e7 : ℕ
  dat : List ℚ
deriving DecidableEq

/-- Element access of the 8D tensor at multi-index `(i0, ..., i7)`. -/
def Grid8.get (g : Grid8) (i0 i1 i2 i3 i4 i5 i6 i7 : ℕ) : ℚ :=
  g.dat.getD
    (((((((i0 * g.e1 + i1) * g.e2 + i2) * g.e3 + i3) * g.e4 + i4) * g.e5 + i5) * g.e6 + i6)
        * g.e7 + i7) 0

/-- `enum GridData`: either a 6D or an 8D tensor. -/
inductive GridData
  | Grid6D (g : Grid6)
  | Grid8D (g : Grid8)
deriving DecidableEq

/-- `struct SubGrid`: one region of phase space with a consistent grid. -/
structure SubGrid where
  xs : List ℚ
  q2s : List ℚ
  kts : List ℚ
  xis : List ℚ
  deltas : List ℚ
  grid : GridData
  nucleons : List ℚ
  alphas : List ℚ
  nucleons_range : ParamRange
  alphas_range : ParamRange
  xi_range : ParamRange
  delta_range : ParamRange
  kt_range : ParamRange
  x_range : ParamRange
  q2_range : ParamRange
deriving DecidableEq

/-- The interpolation dimensionality classes (`enum InterpolationConfig` in
`interpolator.rs`; the variant list is fixed by the exhaustive match in
`SubGrid::contains_point`). -/
inductive InterpolationConfig
  | TwoD
  | ThreeDNucleons
  | ThreeDAlphas
  | ThreeDXi
  | ThreeDDelta
  | ThreeDKt
  | FourDNucleonsAlphas
  | FourDNucleonsKt
  | FourDAlphasKt
  | FourDXiDelta
  | FiveD
  | SixD
  | SevenD
deriving DecidableEq, Repr

/-- Modelled from the spec: `InterpolationConfig::from_dimensions` lives in
`src/neopdf/src/interpolator.rs`, which is not part of this source tree.
Per spec section 4.4, an axis is active when its length exceeds 1; the
active set `{}` maps to two-D, each singleton to its three-D class, the
pairs `{nucleons,alphas}`, `{nucleons,kT}`, `{alphas,kT}`, `{xi,delta}` to
their four-D classes, `{kT,xi,delta}` to five-D,
`{nucleons,kT,xi,delta}` to six-D, all five to seven-D, and every other
pattern is rejected as an unsupported configuration (`none`). -/
def InterpolationConfig.from_dimensions (n a xi d kt : ℕ) : Option InterpolationConfig :=
  match decide (1 < n), decide (1 < a), decide (1 < xi), decide (1 < d), decide (1 < kt) with
  | false, false, false, false, false => some .TwoD
  | true, false, false, false, false => some .ThreeDNucleons
  | false, true, false, false, false => some .ThreeDAlphas
  | false, false, true, false, false => some .ThreeDXi
  | false, false, false, true, false => some .ThreeDDelta
  | false, false, false, false, true => some .ThreeDKt
  | true, true, false, false, false => some .FourDNucleonsAlphas
  | true, false, false, false, true => some .FourDNucleonsKt
  | false, true, false, false, true => some .FourDAlphasKt
  | false, false, true, true, false => some .FourDXiDelta
  | false, false, true, true, true => some .FiveD
  | true, false, true, true, true => some .SixD
  | true, true, true, true, true => some .SevenD
  | _, _, _, _, _ => none

/-- `SubGrid::interpolation_config`: classify by the five optional axis
lengths. -/
def SubGrid.interpolation_config (sg : SubGrid) : Option InterpolationConfig :=
  InterpolationConfig.from_dimensions sg.nucleons.length sg.alphas.length sg.xis.length
    sg.deltas.length sg.kts.length

/-- Index translation of `permuted_axes([0, 1, 5, 2, 3, 4])` followed by
`as_standard_layout` in `SubGrid::new`: maps a flat index of the stored
layout `[nucleons, alphas, flavor, kT, x, Q2]` to the flat index of the
input layout `[nucleons, alphas, kT, x, Q2, flavor]`. -/
def sigma6 (dA dF dK dX dQ : ℕ) (t : ℕ) : ℕ :=
  ((((t / dQ / dX / dK / dF / dA * dA + t / dQ / dX / dK / dF % dA) * dK + t / dQ / dX % dK)
      * dX + t / dQ % dX) * dQ + t % dQ) * dF + t / dQ / dX / dK % dF

/-- `SubGrid::new`: builds the fixed-rank 6D subgrid from raw data.  The
flat input is in layout `[nucleons, alphas, kT, x, Q2, flavor]`; the stored
tensor is the standard-layout copy in the permuted order
`[nucleons, alphas, flavor, kT, x, Q2]`.  The `unwrap`/`expect` panics on
an empty axis or a payload length mismatch are modelled as `none`. -/
def SubGrid.new (nucleon_numbers alphas_values kt_subgrid x_subgrid q2_subgrid : List ℚ)
    (nflav : ℕ) (grid_data : List ℚ) : Option SubGrid :=
  if nucleon_numbers = [] ∨ alphas_values = [] ∨ kt_subgrid = [] ∨ x_subgrid = [] ∨
      q2_subgrid = [] then
    none
  else if grid_data.length ≠ nucleon_numbers.length * alphas_values.length * kt_subgrid.length
      * x_subgrid.length * q2_subgrid.length * nflav then
    none
  else
    some
      { xs := x_subgrid
        q2s := q2_subgrid
        kts := kt_subgrid
        xis := [0]
        deltas := [0]
        grid := GridData.Grid6D
          { d0 := nucleon_numbers.length
            d1 := alphas_values.length
            d2 := nflav
            d3 := kt_subgrid.length
            d4 := x_subgrid.length
            d5 := q2_subgrid.length
            dat := (List.range (nucleon_numbers.length * alphas_values.length * nflav
                * kt_subgrid.length * x_subgrid.length * q2_subgrid.length)).map
              fun t => grid_data.getD
                (sigma6 alphas_values.length nflav kt_subgrid.length x_subgrid.length
                  q2_subgrid.length t) 0 }
        nucleons := nucleon_numbers
        alphas := alphas_values
        nucleons_range := ⟨nucleon_numbers.headD 0, nucleon_numbers.getLastD 0⟩
        alphas_range := ⟨alphas_values.headD 0, alphas_values.getLastD 0⟩
        xi_range := ⟨0, 0⟩
        delta_range := ⟨0, 0⟩
        kt_range := ⟨kt_subgrid.headD 0, kt_subgrid.getLastD 0⟩
        x_range := ⟨x_subgrid.headD 0, x_subgrid.getLastD 0⟩
        q2_range := ⟨q2_subgrid.headD 0, q2_subgrid.getLastD 0⟩ }

/-- `SubGrid::new_8d`: builds the variable-rank 8D subgrid from raw data.
`ArrayD::from_shape_vec` keeps the input layout
`[nucleons, alphas, xi, delta, kT, flavor, x, Q2]`; panics are modelled as
`none`. -/
def SubGrid.new_8d (nucleon_numbers alphas_values xi_values delta_values kt_subgrid x_subgrid
    q2_subgrid : List ℚ) (nflav : ℕ) (grid_data : List ℚ) : Option SubGrid :=
  if nucleon_numbers = [] ∨ alphas_values = [] ∨ xi_values = [] ∨ delta_values = [] ∨
      kt_subgrid = [] ∨ x_subgrid = [] ∨ q2_subgrid = [] then
    none
  else if grid_data.length ≠ nucleon_numbers.length * alphas_values.length * xi_values.length
      * delta_values.length * kt_subgrid.length * nflav * x_subgrid.length
      * q2_subgrid.length then
    none
  else
    some
      { xs := x_subgrid
        q2s := q2_subgrid
        kts := kt_subgrid
        xis := xi_values
        deltas := delta_values
        grid := GridData.Grid8D
          { e0 := nucleon_numbers.length
            e1 := alphas_values.length
            e2 := xi_values.length
            e3 := delta_values.length
            e4 := kt_subgrid.length
            e5 := nflav
            e6 := x_subgrid.length
            e7 := q2_subgrid.length
            dat := grid_data }
        nucleons := nucleon_numbers
        alphas := alphas_values
        nucleons_range := ⟨nucleon_numbers.headD 0, nucleon_numbers.getLastD 0⟩
        alphas_range := ⟨alphas_values.headD 0, alphas_values.getLastD 0⟩
        xi_range := ⟨xi_values.headD 0, xi_values.getLastD 0⟩
        delta_range := ⟨delta_values.headD 0, delta_values.getLastD 0⟩
        kt_range := ⟨kt_subgrid.headD 0, kt_subgrid.getLastD 0⟩
        x_range := ⟨x_subgrid.headD 0, x_subgrid.getLastD 0⟩
        q2_range := ⟨q2_subgrid.headD 0, q2_subgrid.getLastD 0⟩ }

/-- `SubGrid::grid_6d` / `GridData::as_6d`: the 6D view; panics on an 8D
grid, modelled as `none`. -/
def SubGrid.grid_6d (sg : SubGrid) : Option Grid6 :=
  match sg.grid with
  | GridData.Grid6D g => some g
  | GridData.Grid8D _ => none

/-- `SubGrid::grid_8d` / `GridData::as_8d`: the 8D view; panics on a 6D
grid, modelled as `none`. -/
def SubGrid.grid_8d (sg : SubGrid) : Option Grid8 :=
  match sg.grid with
  | GridData.Grid6D _ => none
  | GridData.Grid8D g => some g

/-- `SubGrid::is_8d`. -/
def SubGrid.is_8d (sg : SubGrid) : Bool :=
  match sg.grid with
  | GridData.Grid6D _ => false
  | GridData.Grid8D _ => true

/-- One summand of `SubGrid::distance_to_point`: squared gap from a value
to the nearest boundary of a range (`0` inside). -/
def gap_sq (range : ParamRange) (point : ℚ) : ℚ :=
  if point < range.min then (range.min - point) * (range.min - point)
  else if point > range.max then (point - range.max) * (point - range.max)
  else 0

/-- The active-axis part of `SubGrid::parameter_ranges`: one range per
optional axis of length `> 1`, in the fixed order nucleons, alphas, xi,
delta, kT. -/
def SubGrid.active_ranges (sg : SubGrid) : List ParamRange :=
  (if 1 < sg.nucleons.length then [sg.nucleons_range] else []) ++
  (if 1 < sg.alphas.length then [sg.alphas_range] else []) ++
  (if 1 < sg.xis.length then [sg.xi_range] else []) ++
  (if 1 < sg.deltas.length then [sg.delta_range] else []) ++
  (if 1 < sg.kts.length then [sg.kt_range] else [])

/-- `SubGrid::parameter_ranges`: the active optional-axis ranges followed by
the always-present x and Q2 ranges. -/
def SubGrid.parameter_ranges (sg : SubGrid) : List ParamRange :=
  sg.active_ranges ++ [sg.x_range, sg.q2_range]

/-- `SubGrid::distance_to_point`: sum of squared boundary gaps over
`parameter_ranges` zipped with the point (the zip truncates at the shorter
of the two). -/
def SubGrid.distance_to_point (sg : SubGrid) (points : List ℚ) : ℚ :=
  ((sg.parameter_ranges.zip points).map fun rp => gap_sq rp.1 rp.2).sum

/-- The `(expected_len, ranges)` pair computed by the match at the top of
`SubGrid::contains_point`, for each classification. -/
def SubGrid.expected_and_ranges (sg : SubGrid) :
    InterpolationConfig → ℕ × List ParamRange
  | .TwoD => (2, [])
  | .ThreeDNucleons => (3, [sg.nucleons_range])
  | .ThreeDAlphas => (3, [sg.alphas_range])
  | .ThreeDXi => (3, [sg.xi_range])
  | .ThreeDDelta => (3, [sg.delta_range])
  | .ThreeDKt => (3, [sg.kt_range])
  | .FourDNucleonsAlphas => (4, [sg.nucleons_range, sg.alphas_range])
  | .FourDNucleonsKt => (4, [sg.nucleons_range, sg.kt_range])
  | .FourDAlphasKt => (4, [sg.alphas_range, sg.kt_range])
  | .FourDXiDelta => (4, [sg.xi_range, sg.delta_range])
  | .FiveD => (5, [sg.kt_range, sg.xi_range, sg.delta_range])
  | .SixD => (6, [sg.nucleons_range, sg.kt_range, sg.xi_range, sg.delta_range])
  | .SevenD =>
    (7, [sg.nucleons_range, sg.alphas_range, sg.xi_range, sg.delta_range, sg.kt_range])

/-- `SubGrid::contains_point`: panics inside `interpolation_config` on an
unsupported axis pattern (modelled as `none`); otherwise `true` iff the
point has the expected length, x and Q2 are inside their ranges, and each
leading coordinate is inside the class-specific range list. -/
def SubGrid.contains_point (sg : SubGrid) (points : List ℚ) : Option Bool :=
  sg.interpolation_config.map fun cfg =>
    let el := (sg.expected_and_ranges cfg).1
    let ranges := (sg.expected_and_ranges cfg).2
    (points.length == el) && sg.x_range.contains (points.getD (el - 2) 0) &&
      sg.q2_range.contains (points.getD (el - 1) 0) &&
      (ranges.zip points).all fun rp => rp.1.contains rp.2

/-- Length of the flavor axis of the stored tensor (axis 2 of the 6D
layout, axis 5 of the 8D layout). -/
def SubGrid.flavor_dim (sg : SubGrid) : ℕ :=
  match sg.grid with
  | GridData.Grid6D g => g.d2
  | GridData.Grid8D g => g.e5

/-- `SubGrid::grid_slice`: the x-by-Q2 plane of one flavor.  Valid only for
the `TwoD` classification (panic otherwise, modelled as `none`); an
out-of-bounds flavor index also panics inside `slice`. -/
def SubGrid.grid_slice (sg : SubGrid) (pid_index : ℕ) : Option (ℕ → ℕ → ℚ) :=
  match sg.interpolation_config with
  | some InterpolationConfig.TwoD =>
    match sg.grid with
    | GridData.Grid6D g =>
      if pid_index < g.d2 then some fun i j => g.get 0 0 pid_index 0 i j else none
    | GridData.Grid8D g =>
      if pid_index < g.e5 then some fun i j => g.get 0 0 0 0 0 pid_index i j else none
  | _ => none

/-- The documented dimensionality table, written from the spec's section
4.4 wording over the five activity bits (nucleons, alphas, xi, delta, kT),
with every undocumented pattern an explicit rejection.  This is the
spec-side definition to be compared with `InterpolationConfig.from_dimensions`. -/
def documented_class (bn ba bxi bd bkt : Bool) : Option InterpolationConfig :=
  match bn, ba, bxi, bd, bkt with
  | false, false, false, false, false => some .TwoD
  | true, false, false, false, false => some .ThreeDNucleons
  | false, true, false, false, false => some .ThreeDAlphas
  | false, false, true, false, false => some .ThreeDXi
  | false, false, false, true, false => some .ThreeDDelta
  | false, false, false, false, true => some .ThreeDKt
  | true, true, false, false, false => some .FourDNucleonsAlphas
  | true, false, false, false, true => some .FourDNucleonsKt
  | false, true, false, false, true => some .FourDAlphasKt
  | false, false, true, true, false => some .FourDXiDelta
  | false, false, true, true, true => some .FiveD
  | true, false, true, true, true => some .SixD
  | true, true, true, true, true => some .SevenD
  | _, _, _, _, _ => none

/-- The thirteen documented activity patterns of spec section 4.4, as
(nucleons, alphas, xi, delta, kT) bit tuples. -/
def supported_patterns : List (Bool × Bool × Bool × Bool × Bool) :=
  [(false, false, false, false, false),
   (true, false, false, false, false),
   (false, true, false, false, false),
   (false, false, true, false, false),
   (false, false, false, true, false),
   (false, false, false, false, true),
   (true, true, false, false, false),
   (true, false, false, false, true),
   (false, true, false, false, true),
   (false, false, true, true, false),
   (false, false, true, true, true),
   (true, false, true, true, true),
   (true, true, true, true, true)]

/-- A concrete subgrid classified `TwoD`: every optional axis pinned at
length 1, x and Q2 ranging over `[0, 1]`. -/
def sgTwoD : SubGrid :=
  { xs := [0, 1]
    q2s := [0, 1]
    kts := [0]
    xis := [0]
    deltas := [0]
    grid := GridData.Grid6D ⟨1, 1, 1, 1, 2, 2, [0, 0, 0, 0]⟩
    nucleons := [1]
    alphas := [1]
    nucleons_range := ⟨1, 1⟩
    alphas_range := ⟨1, 1⟩
    xi_range := ⟨0, 0⟩
    delta_range := ⟨0, 0⟩
    kt_range := ⟨0, 0⟩
    x_range := ⟨0, 1⟩
    q2_range := ⟨0, 1⟩ }

/-- A concrete subgrid classified `FiveD`: kT, xi and delta active with
pairwise disjoint ranges, nucleons and alphas pinned. -/
def sgFiveD : SubGrid :=
  { xs := [0, 1]
    q2s := [0, 1]
    kts := [0, 1]
    xis := [10, 20]
    deltas := [30, 40]
    grid := GridData.Grid8D ⟨1, 1, 2, 2, 2, 1, 2, 2, List.replicate 32 0⟩
    nucleons := [1]
    alphas := [1]
    nucleons_range := ⟨1, 1⟩
    alphas_range := ⟨1, 1⟩
    xi_range := ⟨10, 20⟩
    delta_range := ⟨30, 40⟩
    kt_range := ⟨0, 1⟩
    x_range := ⟨0, 1⟩
    q2_range := ⟨0, 1⟩ }

/-- A concrete 6D subgrid built by `SubGrid::new` from pinned nucleon,
alphas and kT axes, a 2-by-2 x-Q2 block and one flavor. -/
def sgW6 : SubGrid :=
  { xs := [1, 2]
    q2s := [3, 4]
    kts := [1]
    xis := [0]
    deltas := [0]
    grid := GridData.Grid6D ⟨1, 1, 1, 1, 2, 2, [10, 20, 30, 40]⟩
    nucleons := [1]
    alphas := [1]
    nucleons_range := ⟨1, 1⟩
    alphas_range := ⟨1, 1⟩
    xi_range := ⟨0, 0⟩
    delta_range := ⟨0, 0⟩
    kt_range := ⟨1, 1⟩
    x_range := ⟨1, 2⟩
    q2_range := ⟨3, 4⟩ }

/-- A parsed record with a non-neutral V2-only xi bound. -/
def nonNeutralV2 : MetaDataV2 :=
  { defaultV2 with xi_min := 2, xi_max := 2 }

/-- Claim C2: `MetaData::deserialize` classifies a parsed record as V2 iff
some xi/delta bound differs from zero by more than `1e-10` or the
interpolator type is the V2-only `LogFourCubic`; otherwise the record is
returned as V1 with the xi/delta fields dropped. -/
theorem deserialize_version_heuristic (v2 : MetaDataV2) :
    (MetaData.deserialize v2 = MetaData.V2 v2 ↔
      |v2.xi_min| > (1 : ℚ) / 10000000000 ∨ |v2.xi_max| > (1 : ℚ) / 10000000000 ∨
        |v2.delta_min| > (1 : ℚ) / 10000000000 ∨ |v2.delta_max| > (1 : ℚ) / 10000000000 ∨
        v2.interpolator_type = InterpolatorType.LogFourCubic) ∧
    (¬(|v2.xi_min| > (1 : ℚ) / 10000000000 ∨ |v2.xi_max| > (1 : ℚ) / 10000000000 ∨
        |v2.delta_min| > (1 : ℚ) / 10000000000 ∨ |v2.delta_max| > (1 : ℚ) / 10000000000 ∨
        v2.interpolator_type = InterpolatorType.LogFourCubic) →
      MetaData.deserialize v2 = MetaData.V1 v2.to_v1) := by
  have hb : (v2.has_v2_ranges || v2.has_v2_interpolator) = true ↔
      (|v2.xi_min| > (1 : ℚ) / 10000000000 ∨ |v2.xi_max| > (1 : ℚ) / 10000000000 ∨
        |v2.delta_min| > (1 : ℚ) / 10000000000 ∨ |v2.delta_max| > (1 : ℚ) / 10000000000 ∨
        v2.interpolator_type = InterpolatorType.LogFourCubic) := by
    simp [MetaDataV2.has_v2_ranges, MetaDataV2.has_v2_interpolator, or_assoc]
  by_cases hP : |v2.xi_min| > (1 : ℚ) / 10000000000 ∨ |v2.xi_max| > (1 : ℚ) / 10000000000 ∨
      |v2.delta_min| > (1 : ℚ) / 10000000000 ∨ |v2.delta_max| > (1 : ℚ) / 10000000000 ∨
      v2.interpolator_type = InterpolatorType.LogFourCubic
  · constructor
    · rw [MetaData.deserialize, if_pos (hb.mpr hP)]
      exact ⟨fun _ => hP, fun _ => rfl⟩
    · exact fun h => absurd hP h
  · have hb' : (v2.has_v2_ranges || v2.has_v2_interpolator) = false :=
      Bool.eq_false_iff.mpr fun h => hP (hb.mp h)
    constructor
    · rw [MetaData.deserialize, if_neg (by simp [hb'])]
      exact ⟨fun h => MetaData.noConfusion h, fun h => absurd h hP⟩
    · intro _
      rw [MetaData.deserialize, if_neg (by simp [hb'])]

/-- Witness for C2 at a concrete record: the all-defaults record is
returned as V1 with the xi/delta fields dropped. -/
theorem deserialize_version_heuristic_witness :
    MetaData.deserialize defaultV2 = MetaData.V1 defaultV2.to_v1 :=
  (deserialize_version_heuristic defaultV2).2 (by norm_num [defaultV2]; decide)

/-- Claim C1 counterexample: the record with `XiMin = XiMax = 1.0`,
`DeltaMin = DeltaMax = 0.0` and the non-V2-only `LogBicubic` interpolator
deserializes as V2, not as V1. -/
theorem deserialize_neutral_xi_is_v2_cex :
    MetaData.deserialize neutralXiV2 = MetaData.V2 neutralXiV2 ∧
      (MetaData.deserialize neutralXiV2).is_v2 = true := by
  have h : MetaData.deserialize neutralXiV2 = MetaData.V2 neutralXiV2 := by
    norm_num [MetaData.deserialize, MetaDataV2.has_v2_ranges, MetaDataV2.has_v2_interpolator,
      neutralXiV2, defaultV2]
  exact ⟨h, by rw [h]; rfl⟩

/-- Claim C1 (amended): a parsed record whose XiMin and XiMax fields equal
1.0 and whose DeltaMin and DeltaMax fields equal 0.0 is classified as V2 by
`MetaData::deserialize`, whatever its interpolator type. -/
theorem deserialize_neutral_xi_classifies_v2 (v2 : MetaDataV2)
    (h1 : v2.xi_min = 1) (h2 : v2.xi_max = 1) (h3 : v2.delta_min = 0) (h4 : v2.delta_max = 0) :
    MetaData.deserialize v2 = MetaData.V2 v2 := by
  have hr : v2.has_v2_ranges = true := by
    simp only [MetaDataV2.has_v2_ranges, h1, h2, h3, h4]
    norm_num
  rw [MetaData.deserialize, if_pos (by simp [hr])]

/-- Witness for the amended C1 at the concrete neutral-xi record. -/
theorem deserialize_neutral_xi_classifies_v2_witness :
    MetaData.deserialize neutralXiV2 = MetaData.V2 neutralXiV2 :=
  deserialize_neutral_xi_classifies_v2 neutralXiV2 rfl rfl rfl rfl

/-- Claim C6: V1-to-V2 conversion sets `xi_min = xi_max = 1.0` and
`delta_min = delta_max = 0.0`; V2-to-V1 conversion drops only the xi/delta
fields (every shared field is copied unchanged); and the composite V1 to V2
to V1 conversion is the identity. -/
theorem metadata_conversion_lossless :
    (∀ v1 : MetaDataV1,
      (MetaDataV2.fromV1 v1).xi_min = 1 ∧ (MetaDataV2.fromV1 v1).xi_max = 1 ∧
        (MetaDataV2.fromV1 v1).delta_min = 0 ∧ (MetaDataV2.fromV1 v1).delta_max = 0 ∧
        (MetaDataV2.fromV1 v1).to_v1 = v1) ∧
    (∀ v2 : MetaDataV2,
      v2.to_v1.set_desc = v2.set_desc ∧ v2.to_v1.set_index = v2.set_index ∧
        v2.to_v1.num_members = v2.num_members ∧ v2.to_v1.x_min = v2.x_min ∧
        v2.to_v1.x_max = v2.x_max ∧ v2.to_v1.q_min = v2.q_min ∧
        v2.to_v1.q_max = v2.q_max ∧ v2.to_v1.flavors = v2.flavors ∧
        v2.to_v1.format = v2.format ∧ v2.to_v1.alphas_q_values = v2.alphas_q_values ∧
        v2.to_v1.alphas_vals = v2.alphas_vals ∧ v2.to_v1.polarised = v2.polarised ∧
        v2.to_v1.set_type = v2.set_type ∧
        v2.to_v1.interpolator_type = v2.interpolator_type ∧
        v2.to_v1.error_type = v2.error_type ∧ v2.to_v1.hadron_pid = v2.hadron_pid ∧
        v2.to_v1.git_version = v2.git_version ∧ v2.to_v1.code_version = v2.code_version ∧
        v2.to_v1.flavor_scheme = v2.flavor_scheme ∧ v2.to_v1.order_qcd = v2.order_qcd ∧
        v2.to_v1.alphas_order_qcd = v2.alphas_order_qcd ∧ v2.to_v1.m_w = v2.m_w ∧
        v2.to_v1.m_z = v2.m_z ∧ v2.to_v1.m_up = v2.m_up ∧ v2.to_v1.m_down = v2.m_down ∧
        v2.to_v1.m_strange = v2.m_strange ∧ v2.to_v1.m_charm = v2.m_charm ∧
        v2.to_v1.m_bottom = v2.m_bottom ∧ v2.to_v1.m_top = v2.m_top ∧
        v2.to_v1.alphas_type = v2.alphas_type ∧
        v2.to_v1.number_flavors = v2.number_flavors) := by
  constructor
  · intro v1
    refine ⟨rfl, rfl, rfl, rfl, ?_⟩
    cases v1
    rfl
  · intro v2
    exact ⟨rfl, rfl, rfl, rfl, rfl, rfl, rfl, rfl, rfl, rfl, rfl, rfl, rfl, rfl, rfl, rfl,
      rfl, rfl, rfl, rfl, rfl, rfl, rfl, rfl, rfl, rfl, rfl, rfl, rfl, rfl, rfl⟩

/-- Claim C9: on a V2 record with non-neutral V2-only data, the
`Deref`/`DerefMut` access path that assumes the V1 layout fails fatally
(panic, modelled as `none`) rather than fabricating a V1 view. -/
theorem deref_v2_fails_fatally (v2 : MetaDataV2)
    (_h : v2.xi_min ≠ 1 ∨ v2.xi_max ≠ 1 ∨ v2.delta_min ≠ 0 ∨ v2.delta_max ≠ 0) :
    MetaData.deref (MetaData.V2 v2) = none ∧ MetaData.deref_mut (MetaData.V2 v2) = none :=
  ⟨rfl, rfl⟩

/-- Witness for C9 at a concrete non-neutral V2 record. -/
theorem deref_v2_fails_fatally_witness :
    MetaData.deref (MetaData.V2 nonNeutralV2) = none ∧
      MetaData.deref_mut (MetaData.V2 nonNeutralV2) = none :=
  deref_v2_fails_fatally nonNeutralV2 (Or.inl (by norm_num [nonNeutralV2, defaultV2]))

/-- The squared boundary gap is nonnegative. -/
lemma gap_sq_nonneg (r : ParamRange) (v : ℚ) : 0 ≤ gap_sq r v := by
  unfold gap_sq
  split_ifs
  · exact mul_self_nonneg _
  · exact mul_self_nonneg _
  · exact le_refl 0

/-- The squared boundary gap vanishes exactly on the inclusive range. -/
lemma gap_sq_eq_zero_iff (r : ParamRange) (v : ℚ) :
    gap_sq r v = 0 ↔ r.contains v = true := by
  unfold gap_sq ParamRange.contains
  split_ifs with h1 h2
  · simp only [mul_self_eq_zero, sub_eq_zero]
    constructor
    · intro h
      rw [h] at h1
      exact absurd h1 (lt_irrefl v)
    · intro h
      simp only [Bool.and_eq_true, decide_eq_true_eq, ge_iff_le] at h
      exact absurd h.1 (not_le.mpr h1)
  · simp only [mul_self_eq_zero, sub_eq_zero]
    constructor
    · intro h
      rw [h] at h2
      exact absurd h2 (lt_irrefl _)
    · intro h
      simp only [Bool.and_eq_true, decide_eq_true_eq, ge_iff_le] at h
      exact absurd h.2 (not_le.mpr h2)
  · simp [ge_iff_le, not_lt.mp h1, not_lt.mp h2]

/-- A sum of squared boundary gaps is nonnegative. -/
lemma gaps_sum_nonneg (l : List (ParamRange × ℚ)) :
    0 ≤ (l.map fun rp => gap_sq rp.1 rp.2).sum := by
  apply List.sum_nonneg
  intro x hx
  obtain ⟨rp, _, rfl⟩ := List.mem_map.mp hx
  exact gap_sq_nonneg _ _

/-- A sum of squared boundary gaps over a zip vanishes exactly when every
zipped pair passes the inclusive containment test. -/
lemma sum_gaps_zero_iff (rs : List ParamRange) (ps : List ℚ) :
    ((rs.zip ps).map fun rp => gap_sq rp.1 rp.2).sum = 0 ↔
      ((rs.zip ps).all fun rp => rp.1.contains rp.2) = true := by
  induction rs generalizing ps with
  | nil => simp
  | cons r rs ih =>
    cases ps with
    | nil => simp
    | cons p ps =>
      simp only [List.zip_cons_cons, List.map_cons, List.sum_cons, List.all_cons,
        Bool.and_eq_true]
      rw [add_eq_zero_iff_of_nonneg (gap_sq_nonneg r p) (gaps_sum_nonneg _),
        gap_sq_eq_zero_iff, ih]

/-- Zipping truncates the right list at the length of the left one. -/
lemma zip_take_len (rs : List ParamRange) (ps : List ℚ) :
    rs.zip ps = rs.zip (ps.take rs.length) := by
  induction rs generalizing ps with
  | nil => rfl
  | cons r rs ih =>
    cases ps with
    | nil => rfl
    | cons p ps =>
      simp only [List.zip_cons_cons, List.length_cons, List.take_succ_cons]
      rw [ih]

/-- Indexing past an appended prefix reads from the suffix. -/
lemma getD_append_len {α : Type} (t l : List α) (i : ℕ) (d : α) :
    (t ++ l).getD (t.length + i) d = l.getD i d := by
  induction t with
  | nil => simp
  | cons a t ih =>
    simp only [List.cons_append, List.length_cons]
    rw [show t.length + 1 + i = (t.length + i) + 1 by omega]
    simpa using ih

/-- The boolean `all` over a zip, rephrased by positional indexing. -/
lemma all_zip_getD (rs : List ParamRange) (ps : List ℚ) (h : rs.length ≤ ps.length) :
    ((rs.zip ps).all fun rp => rp.1.contains rp.2) = true ↔
      ∀ i, i < rs.length → ((rs.getD i ⟨0, 0⟩).contains (ps.getD i 0)) = true := by
  induction rs generalizing ps with
  | nil => simp
  | cons r rs ih =>
    cases ps with
    | nil => simp at h
    | cons p ps =>
      simp only [List.zip_cons_cons, List.all_cons, Bool.and_eq_true, List.length_cons]
      rw [ih ps (by simpa using h)]
      constructor
      · rintro ⟨h0, hrest⟩ i hi
        cases i with
        | zero => simpa using h0
        | succ j => simpa using hrest j (by omega)
      · intro hall
        refine ⟨by simpa using hall 0 (by omega), fun j hj => ?_⟩
        simpa using hall (j + 1) (by omega)

/-- The zip-map-sum of squared gaps as a positional sum over the first
`min` of the two lengths. -/
lemma zip_map_sum_eq_range (rs : List ParamRange) (ps : List ℚ) :
    ((rs.zip ps).map fun rp => gap_sq rp.1 rp.2).sum =
      ∑ i ∈ Finset.range (min rs.length ps.length),
        gap_sq (rs.getD i ⟨0, 0⟩) (ps.getD i 0) := by
  induction rs generalizing ps with
  | nil => simp
  | cons r rs ih =>
    cases ps with
    | nil => simp
    | cons p ps =>
      simp only [List.zip_cons_cons, List.map_cons, List.sum_cons, List.length_cons]
      rw [Nat.succ_min_succ, Finset.sum_range_succ']
      simp only [List.getD_cons_succ, List.getD_cons_zero]
      rw [ih, add_comm]

/-- Peeling one row-major level: modulus and quotient of `c * m + r`. -/
lemma unflatten_step (c r m : ℕ) (h : r < m) :
    (c * m + r) % m = r ∧ (c * m + r) / m = c := by
  have hm : 0 < m := Nat.lt_of_le_of_lt (Nat.zero_le r) h
  constructor
  · rw [Nat.mul_comm c m, Nat.mul_add_mod]
    exact Nat.mod_eq_of_lt h
  · rw [Nat.mul_comm, Nat.mul_add_div hm, Nat.div_eq_of_lt h, Nat.add_zero]

/-- A row-major flat index stays below the product of the extents. -/
lemma idx_lt {a n b m : ℕ} (ha : a < n) (hb : b < m) : a * m + b < n * m := by
  calc a * m + b < a * m + m := by omega
    _ = (a + 1) * m := by ring
    _ ≤ n * m := Nat.mul_le_mul_right m (Nat.succ_le_of_lt ha)

/-- Reading a mapped range list at an in-bounds index. -/
lemma getD_map_range (n t : ℕ) (f : ℕ → ℚ) (ht : t < n) :
    ((List.range n).map f).getD t 0 = f t := by
  rw [List.getD_eq_getElem ((List.range n).map f) 0 (by simpa using ht)]
  simp

/-- `sigma6` inverts the stored-layout flattening back to the input-layout
flat index, for in-bounds multi-indices. -/
lemma sigma6_flat (dA dF dK dX dQ : ℕ) (i0 i1 i2 i3 i4 i5 : ℕ)
    (h1 : i1 < dA) (h2 : i2 < dF) (h3 : i3 < dK) (h4 : i4 < dX) (h5 : i5 < dQ) :
    sigma6 dA dF dK dX dQ (((((i0 * dA + i1) * dF + i2) * dK + i3) * dX + i4) * dQ + i5) =
      ((((i0 * dA + i1) * dK + i3) * dX + i4) * dQ + i5) * dF + i2 := by
  unfold sigma6
  rw [(unflatten_step ((((i0 * dA + i1) * dF + i2) * dK + i3) * dX + i4) i5 dQ h5).1,
    (unflatten_step ((((i0 * dA + i1) * dF + i2) * dK + i3) * dX + i4) i5 dQ h5).2,
    (unflatten_step (((i0 * dA + i1) * dF + i2) * dK + i3) i4 dX h4).1,
    (unflatten_step (((i0 * dA + i1) * dF + i2) * dK + i3) i4 dX h4).2,
    (unflatten_step ((i0 * dA + i1) * dF + i2) i3 dK h3).1,
    (unflatten_step ((i0 * dA + i1) * dF + i2) i3 dK h3).2,
    (unflatten_step (i0 * dA + i1) i2 dF h2).1,
    (unflatten_step (i0 * dA + i1) i2 dF h2).2,
    (unflatten_step i0 i1 dA h1).1,
    (unflatten_step i0 i1 dA h1).2]

/-- For every classification, the expected point length is the class range
list length plus two (x and Q2). -/
lemma expected_len_eq (sg : SubGrid) (cfg : InterpolationConfig) :
    (sg.expected_and_ranges cfg).1 = (sg.expected_and_ranges cfg).2.length + 2 := by
  cases cfg <;> rfl

/-- The modelled classification agrees with the documented table over the
five activity bits. -/
lemma from_dimensions_eq (n a x d k : ℕ) :
    InterpolationConfig.from_dimensions n a x d k =
      documented_class (decide (1 < n)) (decide (1 < a)) (decide (1 < x)) (decide (1 < d))
        (decide (1 < k)) := by
  unfold InterpolationConfig.from_dimensions documented_class
  cases decide (1 < n) <;> cases decide (1 < a) <;> cases decide (1 < x) <;>
    cases decide (1 < d) <;> cases decide (1 < k) <;> rfl

/-- Outside the `FiveD` and `SixD` classes, the class-specific range list
hard-coded in `contains_point` coincides with the `parameter_ranges`
active-axis list. -/
lemma config_active (sg : SubGrid) (cfg : InterpolationConfig)
    (hc : sg.interpolation_config = some cfg) (h5 : cfg ≠ .FiveD) (h6 : cfg ≠ .SixD) :
    (sg.expected_and_ranges cfg).2 = sg.active_ranges := by
  rw [SubGrid.interpolation_config, from_dimensions_eq] at hc
  by_cases hb1 : 1 < sg.nucleons.length <;> by_cases hb2 : 1 < sg.alphas.length <;>
    by_cases hb3 : 1 < sg.xis.length <;> by_cases hb4 : 1 < sg.deltas.length <;>
    by_cases hb5 : 1 < sg.kts.length <;>
    simp only [hb1, hb2, hb3, hb4, hb5, decide_True, decide_False, documented_class,
      Option.some.injEq, reduceCtorEq] at hc <;>
    first
      | exact absurd hc.symm h5
      | exact absurd hc.symm h6
      | (subst hc
         simp [SubGrid.expected_and_ranges, SubGrid.active_ranges, hb1, hb2, hb3, hb4, hb5])

/-- Core equivalence: when the class range list matches the active-axis
list, the distance vanishes exactly on contained points of the expected
length. -/
lemma dist_iff_core (sg : SubGrid) (cfg : InterpolationConfig) (p : List ℚ)
    (hc : sg.interpolation_config = some cfg)
    (hr : (sg.expected_and_ranges cfg).2 = sg.active_ranges)
    (hl : p.length = (sg.expected_and_ranges cfg).1) :
    (sg.distance_to_point p = 0 ↔ sg.contains_point p = some true) := by
  have he' : (sg.expected_and_ranges cfg).1 = sg.active_ranges.length + 2 := by
    rw [expected_len_eq, hr]
  have hlen : p.length = sg.active_ranges.length + 2 := by rw [hl, he']
  have htake : (p.take sg.active_ranges.length).length = sg.active_ranges.length := by
    rw [List.length_take]
    omega
  have hdrop : (p.drop sg.active_ranges.length).length = 2 := by
    rw [List.length_drop]
    omega
  obtain ⟨u, v, huv⟩ := List.length_eq_two.mp hdrop
  have hgu : p.getD ((sg.expected_and_ranges cfg).1 - 2) 0 = u := by
    rw [he']
    conv_lhs => rw [← List.take_append_drop sg.active_ranges.length p, huv]
    rw [show sg.active_ranges.length + 2 - 2 = (p.take sg.active_ranges.length).length + 0 by
      rw [htake]
      omega]
    rw [getD_append_len]
    rfl
  have hgv : p.getD ((sg.expected_and_ranges cfg).1 - 1) 0 = v := by
    rw [he']
    conv_lhs => rw [← List.take_append_drop sg.active_ranges.length p, huv]
    rw [show sg.active_ranges.length + 2 - 1 = (p.take sg.active_ranges.length).length + 1 by
      rw [htake]
      omega]
    rw [getD_append_len]
    rfl
  have hdist : sg.distance_to_point p =
      ((sg.active_ranges.zip (p.take sg.active_ranges.length)).map fun rp =>
        gap_sq rp.1 rp.2).sum + (gap_sq sg.x_range u + (gap_sq sg.q2_range v + 0)) := by
    rw [SubGrid.distance_to_point, SubGrid.parameter_ranges]
    conv_lhs => rw [← List.take_append_drop sg.active_ranges.length p, huv]
    rw [List.zip_append htake.symm, List.map_append, List.sum_append]
    rfl
  have hcont : sg.contains_point p = some (
      (p.length == (sg.expected_and_ranges cfg).1) &&
      sg.x_range.contains u && sg.q2_range.contains v &&
      ((sg.active_ranges.zip (p.take sg.active_ranges.length)).all fun rp =>
        rp.1.contains rp.2)) := by
    rw [SubGrid.contains_point, hc]
    simp only [Option.map_some']
    rw [hgu, hgv, hr, zip_take_len]
  rw [hdist, hcont]
  rw [add_eq_zero_iff_of_nonneg (gaps_sum_nonneg _)
    (add_nonneg (gap_sq_nonneg _ _) (add_nonneg (gap_sq_nonneg _ _) (le_refl 0))),
    add_zero, add_eq_zero_iff_of_nonneg (gap_sq_nonneg _ _) (gap_sq_nonneg _ _),
    sum_gaps_zero_iff, gap_sq_eq_zero_iff, gap_sq_eq_zero_iff]
  simp only [Option.some.injEq, Bool.and_eq_true, beq_iff_eq, hl]
  tauto

/-- `SubGrid::new` succeeds exactly with this subgrid value. -/
lemma new_eq_some (nn av kt xs q2 : List ℚ) (nflav : ℕ) (gd : List ℚ) (sg : SubGrid)
    (h : SubGrid.new nn av kt xs q2 nflav gd = some sg) :
    sg = { xs := xs, q2s := q2, kts := kt, xis := [0], deltas := [0],
           grid := GridData.Grid6D
             { d0 := nn.length, d1 := av.length, d2 := nflav, d3 := kt.length,
               d4 := xs.length, d5 := q2.length,
               dat := (List.range (nn.length * av.length * nflav * kt.length * xs.length
                   * q2.length)).map
                 fun t => gd.getD (sigma6 av.length nflav kt.length xs.length q2.length t) 0 },
           nucleons := nn, alphas := av,
           nucleons_range := ⟨nn.headD 0, nn.getLastD 0⟩,
           alphas_range := ⟨av.headD 0, av.getLastD 0⟩,
           xi_range := ⟨0, 0⟩, delta_range := ⟨0, 0⟩,
           kt_range := ⟨kt.headD 0, kt.getLastD 0⟩,
           x_range := ⟨xs.headD 0, xs.getLastD 0⟩,
           q2_range := ⟨q2.headD 0, q2.getLastD 0⟩ } := by
  rw [SubGrid.new] at h
  split_ifs at h
  exact (Option.some.inj h).symm

/-- The stored 6D tensor of a `SubGrid::new` subgrid reads back the input
payload through the layout permutation. -/
lemma new_grid_get (nn av kt xs q2 : List ℚ) (nflav : ℕ) (gd : List ℚ) (sg : SubGrid)
    (h : SubGrid.new nn av kt xs q2 nflav gd = some sg)
    (i0 i1 i2 i3 i4 i5 : ℕ) (hb0 : i0 < nn.length) (hb1 : i1 < av.length) (hb2 : i2 < nflav)
    (hb3 : i3 < kt.length) (hb4 : i4 < xs.length) (hb5 : i5 < q2.length) :
    ∃ g, sg.grid_6d = some g ∧ g.d0 = nn.length ∧ g.d1 = av.length ∧ g.d2 = nflav ∧
      g.d3 = kt.length ∧ g.d4 = xs.length ∧ g.d5 = q2.length ∧
      g.get i0 i1 i2 i3 i4 i5 =
        gd.getD (((((i0 * av.length + i1) * kt.length + i3) * xs.length + i4)
          * q2.length + i5) * nflav + i2) 0 := by
  have hs := new_eq_some nn av kt xs q2 nflav gd sg h
  subst hs
  refine ⟨_, rfl, rfl, rfl, rfl, rfl, rfl, rfl, ?_⟩
  rw [Grid6.get]
  have hbound : ((((i0 * av.length + i1) * nflav + i2) * kt.length + i3) * xs.length + i4)
      * q2.length + i5 <
      nn.length * av.length * nflav * kt.length * xs.length * q2.length :=
    idx_lt (idx_lt (idx_lt (idx_lt (idx_lt hb0 hb1) hb2) hb3) hb4) hb5
  rw [getD_map_range _ _ _ hbound]
  rw [sigma6_flat _ _ _ _ _ _ _ _ _ _ _ hb1 hb2 hb3 hb4 hb5]

/-- `SubGrid::new_8d` succeeds exactly with this subgrid value. -/
lemma new_8d_eq_some (nn av xiv dl kt xs q2 : List ℚ) (nflav : ℕ) (gd : List ℚ) (sg : SubGrid)
    (h : SubGrid.new_8d nn av xiv dl kt xs q2 nflav gd = some sg) :
    sg = { xs := xs, q2s := q2, kts := kt, xis := xiv, deltas := dl,
           grid := GridData.Grid8D
             { e0 := nn.length, e1 := av.length, e2 := xiv.length, e3 := dl.length,
               e4 := kt.length, e5 := nflav, e6 := xs.length, e7 := q2.length, dat := gd },
           nucleons := nn, alphas := av,
           nucleons_range := ⟨nn.headD 0, nn.getLastD 0⟩,
           alphas_range := ⟨av.headD 0, av.getLastD 0⟩,
           xi_range := ⟨xiv.headD 0, xiv.getLastD 0⟩,
           delta_range := ⟨dl.headD 0, dl.getLastD 0⟩,
           kt_range := ⟨kt.headD 0, kt.getLastD 0⟩,
           x_range := ⟨xs.headD 0, xs.getLastD 0⟩,
           q2_range := ⟨q2.headD 0, q2.getLastD 0⟩ } := by
  rw [SubGrid.new_8d] at h
  split_ifs at h
  exact (Option.some.inj h).symm

/-- `SubGrid::new` builds `sgW6`. -/
lemma new_sgW6 : SubGrid.new [1] [1] [1] [1, 2] [3, 4] 1 [10, 20, 30, 40] = some sgW6 := rfl

/-- Claim C3 counterexample: on the concrete `FiveD` subgrid `sgFiveD` the
matching-length point `(kT, xi, delta, x, Q2) = (1/2, 15, 35, 1/2, 1/2)` is
reported contained, yet its distance is non-zero: `contains_point` checks
the leading coordinates against `[kT, xi, delta]` while `distance_to_point`
ranges over `[xi, delta, kT]`. -/
theorem distance_contains_disagree_five_d_cex :
    sgFiveD.interpolation_config = some InterpolationConfig.FiveD ∧
      ([(1 : ℚ)/2, 15, 35, 1/2, 1/2].length =
        (sgFiveD.expected_and_ranges InterpolationConfig.FiveD).1) ∧
      sgFiveD.contains_point [1/2, 15, 35, 1/2, 1/2] = some true ∧
      sgFiveD.distance_to_point [1/2, 15, 35, 1/2, 1/2] ≠ 0 := by
  refine ⟨rfl, rfl, ?_, ?_⟩
  · norm_num [SubGrid.contains_point, SubGrid.interpolation_config,
      InterpolationConfig.from_dimensions, SubGrid.expected_and_ranges, ParamRange.contains,
      sgFiveD]
  · norm_num [SubGrid.distance_to_point, SubGrid.parameter_ranges, SubGrid.active_ranges,
      gap_sq, sgFiveD]

/-- Claim C3 (amended): for every subgrid whose classification is neither
`FiveD` nor `SixD`, and every point of the expected length,
`distance_to_point` is zero iff `contains_point` is true.  (For the `FiveD`
and `SixD` classes the two operations pair the coordinates with the axis
ranges in different orders, and the equivalence fails.) -/
theorem distance_zero_iff_contains_point (sg : SubGrid) (cfg : InterpolationConfig)
    (hc : sg.interpolation_config = some cfg)
    (h5 : cfg ≠ InterpolationConfig.FiveD) (h6 : cfg ≠ InterpolationConfig.SixD)
    (p : List ℚ) (hl : p.length = (sg.expected_and_ranges cfg).1) :
    sg.distance_to_point p = 0 ↔ sg.contains_point p = some true :=
  dist_iff_core sg cfg p hc (config_active sg cfg hc h5 h6) hl

/-- Witness for the amended C3 on the concrete two-dimensional subgrid. -/
theorem distance_zero_iff_contains_point_witness :
    sgTwoD.distance_to_point [1/2, 1/2] = 0 ↔ sgTwoD.contains_point [1/2, 1/2] = some true :=
  distance_zero_iff_contains_point sgTwoD InterpolationConfig.TwoD rfl (by decide) (by decide)
    [1/2, 1/2] rfl

/-- Claim C4: the activity-pattern classification computed through
`interpolation_config` is total: each of the 32 patterns over the five
optional axes either yields the documented class or is explicitly rejected,
and a pattern is accepted exactly when it is one of the thirteen documented
ones. -/
theorem interpolation_config_totality :
    (∀ sg : SubGrid,
      sg.interpolation_config =
        documented_class (decide (1 < sg.nucleons.length)) (decide (1 < sg.alphas.length))
          (decide (1 < sg.xis.length)) (decide (1 < sg.deltas.length))
          (decide (1 < sg.kts.length))) ∧
    (∀ bn ba bxi bd bkt : Bool,
      (documented_class bn ba bxi bd bkt).isSome =
        decide ((bn, ba, bxi, bd, bkt) ∈ supported_patterns)) := by
  constructor
  · intro sg
    rw [SubGrid.interpolation_config, from_dimensions_eq]
  · decide

/-- Claim C5: a subgrid built from axis arrays and a flat payload reads
back the exact input value at every in-bounds coordinate through the
rank-specific accessor.  For the fixed rank the stored axis order is
`[nucleons, alphas, flavor, kT, x, Q2]` against an input payload in
`[nucleons, alphas, kT, x, Q2, flavor]` order; for the variable rank both
are `[nucleons, alphas, xi, delta, kT, flavor, x, Q2]`. -/
theorem subgrid_roundtrip :
    (∀ (nn av kt xs q2 : List ℚ) (nflav : ℕ) (gd : List ℚ) (sg : SubGrid),
      SubGrid.new nn av kt xs q2 nflav gd = some sg →
      ∀ i0 i1 i2 i3 i4 i5 : ℕ, i0 < nn.length → i1 < av.length → i2 < nflav →
        i3 < kt.length → i4 < xs.length → i5 < q2.length →
        ∃ g, sg.grid_6d = some g ∧ g.d0 = nn.length ∧ g.d1 = av.length ∧ g.d2 = nflav ∧
          g.d3 = kt.length ∧ g.d4 = xs.length ∧ g.d5 = q2.length ∧
          g.get i0 i1 i2 i3 i4 i5 =
            gd.getD (((((i0 * av.length + i1) * kt.length + i3) * xs.length + i4)
              * q2.length + i5) * nflav + i2) 0) ∧
    (∀ (nn av xiv dl kt xs q2 : List ℚ) (nflav : ℕ) (gd : List ℚ) (sg : SubGrid),
      SubGrid.new_8d nn av xiv dl kt xs q2 nflav gd = some sg →
      ∀ i0 i1 i2 i3 i4 i5 i6 i7 : ℕ,
        ∃ g, sg.grid_8d = some g ∧ g.e0 = nn.length ∧ g.e1 = av.length ∧
          g.e2 = xiv.length ∧ g.e3 = dl.length ∧ g.e4 = kt.length ∧ g.e5 = nflav ∧
          g.e6 = xs.length ∧ g.e7 = q2.length ∧
          g.get i0 i1 i2 i3 i4 i5 i6 i7 =
            gd.getD (((((((i0 * av.length + i1) * xiv.length + i2) * dl.length + i3)
              * kt.length + i4) * nflav + i5) * xs.length + i6) * q2.length + i7) 0) := by
  constructor
  · intro nn av kt xs q2 nflav gd sg h i0 i1 i2 i3 i4 i5 hb0 hb1 hb2 hb3 hb4 hb5
    exact new_grid_get nn av kt xs q2 nflav gd sg h i0 i1 i2 i3 i4 i5 hb0 hb1 hb2 hb3 hb4 hb5
  · intro nn av xiv dl kt xs q2 nflav gd sg h i0 i1 i2 i3 i4 i5 i6 i7
    have hs := new_8d_eq_some nn av xiv dl kt xs q2 nflav gd sg h
    subst hs
    exact ⟨_, rfl, rfl, rfl, rfl, rfl, rfl, rfl, rfl, rfl, rfl⟩

/-- Witness for C5 on the concrete subgrid `sgW6`: the value at
`(x, Q2) = (index 1, index 0)` is the third payload entry. -/
theorem subgrid_roundtrip_witness :
    ∃ g, sgW6.grid_6d = some g ∧ g.get 0 0 0 0 1 0 = 30 := by
  obtain ⟨g, hg, _, _, _, _, _, _, hval⟩ :=
    subgrid_roundtrip.1 [1] [1] [1] [1, 2] [3, 4] 1 [10, 20, 30, 40] sgW6 new_sgW6
      0 0 0 0 1 0 (by decide) (by decide) (by decide) (by decide) (by decide) (by decide)
  refine ⟨g, hg, ?_⟩
  rw [hval]
  norm_num

/-- Claim C7: `contains_point` returns `false` (not an error) on a point of
the wrong length; on a point of the expected length it returns `true`
exactly when each leading coordinate lies inside the class range list entry
at its position and the last two coordinates lie inside the x and Q2
ranges, all inclusive. -/
theorem contains_point_length_and_ranges (sg : SubGrid) (cfg : InterpolationConfig)
    (hc : sg.interpolation_config = some cfg) (p : List ℚ) :
    (p.length ≠ (sg.expected_and_ranges cfg).1 → sg.contains_point p = some false) ∧
    (p.length = (sg.expected_and_ranges cfg).1 →
      (sg.contains_point p = some true ↔
        (∀ i, i < (sg.expected_and_ranges cfg).2.length →
          (((sg.expected_and_ranges cfg).2.getD i ⟨0, 0⟩).contains (p.getD i 0)) = true) ∧
        sg.x_range.contains (p.getD ((sg.expected_and_ranges cfg).1 - 2) 0) = true ∧
        sg.q2_range.contains (p.getD ((sg.expected_and_ranges cfg).1 - 1) 0) = true)) := by
  constructor
  · intro hne
    rw [SubGrid.contains_point, hc]
    simp only [Option.map_some', Option.some.injEq]
    have hb : (p.length == (sg.expected_and_ranges cfg).1) = false := by
      simp [hne]
    simp [hb]
  · intro hl
    rw [SubGrid.contains_point, hc]
    simp only [Option.map_some', Option.some.injEq, Bool.and_eq_true, beq_iff_eq]
    rw [all_zip_getD _ _ (by rw [hl, expected_len_eq]; omega)]
    simp only [hl, true_and]
    tauto

/-- Witness for C7 on the concrete two-dimensional subgrid: a length-1
point is rejected with `false`, a length-2 in-range point is accepted. -/
theorem contains_point_length_and_ranges_witness :
    sgTwoD.contains_point [1/2] = some false ∧ sgTwoD.contains_point [1/2, 1/2] = some true := by
  constructor
  · exact (contains_point_length_and_ranges sgTwoD InterpolationConfig.TwoD rfl [1/2]).1
      (by decide)
  · refine ((contains_point_length_and_ranges sgTwoD InterpolationConfig.TwoD rfl
      [1/2, 1/2]).2 rfl).mpr ⟨?_, ?_, ?_⟩
    · intro i hi
      exact absurd hi (by simp [SubGrid.expected_and_ranges])
    · norm_num [ParamRange.contains, sgTwoD, SubGrid.expected_and_ranges]
    · norm_num [ParamRange.contains, sgTwoD, SubGrid.expected_and_ranges]

/-- Claim C8: `grid_slice` yields the x-by-Q2 plane of a flavor exactly
when the classification is the pure two-dimensional case, failing fatally
otherwise; on a `SubGrid::new` subgrid with all optional axes pinned the
returned plane reproduces the corresponding input block. -/
theorem grid_slice_two_d_only :
    (∀ (sg : SubGrid) (pid : ℕ), pid < sg.flavor_dim →
      ((∃ f, sg.grid_slice pid = some f) ↔
        sg.interpolation_config = some InterpolationConfig.TwoD)) ∧
    (∀ (nn av kt xs q2 : List ℚ) (nflav : ℕ) (gd : List ℚ) (sg : SubGrid),
      SubGrid.new nn av kt xs q2 nflav gd = some sg →
      nn.length = 1 → av.length = 1 → kt.length = 1 →
      ∀ pid, pid < nflav → ∀ i j, i < xs.length → j < q2.length →
        ∃ f, sg.grid_slice pid = some f ∧
          f i j = gd.getD ((i * q2.length + j) * nflav + pid) 0) := by
  constructor
  · intro sg pid hpid
    cases hcfg : sg.interpolation_config with
    | none => simp [SubGrid.grid_slice, hcfg]
    | some cfg =>
      cases cfg
      case TwoD =>
        cases hgr : sg.grid with
        | Grid6D g =>
          rw [SubGrid.flavor_dim, hgr] at hpid
          simp [SubGrid.grid_slice, hcfg, hgr, hpid]
        | Grid8D g =>
          rw [SubGrid.flavor_dim, hgr] at hpid
          simp [SubGrid.grid_slice, hcfg, hgr, hpid]
      all_goals simp [SubGrid.grid_slice, hcfg]
  · intro nn av kt xs q2 nflav gd sg h h1 h2 h3 pid hpid i j hi hj
    obtain ⟨g, hg6, hd0, hd1, hd2, hd3, hd4, hd5, hval⟩ :=
      new_grid_get nn av kt xs q2 nflav gd sg h 0 0 pid 0 i j (by omega) (by omega) hpid
        (by omega) hi hj
    have hgr : sg.grid = GridData.Grid6D g := by
      cases hgrid : sg.grid with
      | Grid6D g2 =>
        simp only [SubGrid.grid_6d, hgrid, Option.some.injEq] at hg6
        rw [hg6]
      | Grid8D g2 =>
        simp only [SubGrid.grid_6d, hgrid] at hg6
        exact Option.noConfusion hg6
    have hcfg : sg.interpolation_config = some InterpolationConfig.TwoD := by
      rw [new_eq_some nn av kt xs q2 nflav gd sg h]
      simp [SubGrid.interpolation_config, InterpolationConfig.from_dimensions, h1, h2, h3]
    refine ⟨fun a b => g.get 0 0 pid 0 a b, ?_, ?_⟩
    · simp only [SubGrid.grid_slice, hcfg, hgr, hd2]
      rw [if_pos hpid]
    · simpa using hval

/-- Witness for C8 on the concrete subgrid `sgW6`: the slice of flavor 0
exists and its `(1, 0)` entry is the third payload entry. -/
theorem grid_slice_two_d_only_witness :
    ∃ f, sgW6.grid_slice 0 = some f ∧ f 1 0 = 30 := by
  obtain ⟨f, hf, hval⟩ := grid_slice_two_d_only.2 [1] [1] [1] [1, 2] [3, 4] 1
    [10, 20, 30, 40] sgW6 new_sgW6 rfl rfl rfl 0 (by decide) 1 0 (by decide) (by decide)
  refine ⟨f, hf, ?_⟩
  rw [hval]
  norm_num

/-- Claim C10: `distance_to_point` performs no length validation: it sums
the squared boundary gaps over only the first `min` of the point length and
the ranged-axis list length, where the ranged-axis list is the active
optional axes in the fixed order nucleons, alphas, xi, delta, kT followed
by x and Q2; in particular a short point can score distance zero while
`contains_point` rejects it. -/
theorem distance_to_point_total_in_length :
    (∀ (sg : SubGrid) (p : List ℚ),
      sg.distance_to_point p =
        ∑ i ∈ Finset.range (min sg.parameter_ranges.length p.length),
          gap_sq (sg.parameter_ranges.getD i ⟨0, 0⟩) (p.getD i 0)) ∧
    (∀ sg : SubGrid,
      sg.parameter_ranges =
        (if 1 < sg.nucleons.length then [sg.nucleons_range] else []) ++
          ((if 1 < sg.alphas.length then [sg.alphas_range] else []) ++
            ((if 1 < sg.xis.length then [sg.xi_range] else []) ++
              ((if 1 < sg.deltas.length then [sg.delta_range] else []) ++
                ((if 1 < sg.kts.length then [sg.kt_range] else []) ++
                  [sg.x_range, sg.q2_range]))))) ∧
    sgTwoD.distance_to_point [1/2] = 0 ∧ sgTwoD.contains_point [1/2] = some false := by
  refine ⟨?_, ?_, ?_, ?_⟩
  · intro sg p
    rw [SubGrid.distance_to_point, zip_map_sum_eq_range]
  · intro sg
    rw [SubGrid.parameter_ranges, SubGrid.active_ranges]
    simp [List.append_assoc]
  · norm_num [SubGrid.distance_to_point, SubGrid.parameter_ranges, SubGrid.active_ranges,
      gap_sq, sgTwoD]
  · norm_num [SubGrid.contains_point, SubGrid.interpolation_config,
      InterpolationConfig.from_dimensions, SubGrid.expected_and_ranges, ParamRange.contains,
      sgTwoD]
